import Mathlib

/-!
Shallow embedding of `lib/jnpr/junos/utils/config.py` (class `Config`) from
py-junos-eznc: the configuration load / commit / rollback / rescue utilities
and their error translation, modelled as pure Lean functions.  The remote RPC
collaborator is passed in explicitly, either as a function from the built
request arguments to an outcome, or directly as an outcome; an outcome is
`Except PyExc Xml`: a response document or a raised exception.
-/

/-- Model of an lxml element: tag, optional text, list of children. -/
inductive Xml where
  | elem (tag : String) (txt : Option String) (children : List Xml)
deriving Repr

/-- The element tag. -/
def Xml.tag : Xml → String
  | .elem t _ _ => t

/-- The element text (Python `element.text`, `None` when absent). -/
def Xml.txt : Xml → Option String
  | .elem _ x _ => x

/-- The direct children of the element. -/
def Xml.children : Xml → List Xml
  | .elem _ _ cs => cs

/-- `element.find(tag)` for a plain tag: first direct child with that tag. -/
def Xml.findChild (x : Xml) (t : String) : Option Xml :=
  x.children.find? (fun c => c.tag == t)

/-- Keep the characters after the last closing brace (the accumulator holds
the characters kept so far, reversed). -/
def stripNsAux : List Char → List Char → List Char
  | acc, [] => acc.reverse
  | acc, c :: cs => if c == '\x7d' then stripNsAux [] cs else stripNsAux (c :: acc) cs

/-- Modelled from the spec: `jxml.remove_namespaces` (the `jxml` module is not
under `src/`) strips protocol-namespace decoration from a diagnostic document;
an lxml namespaced tag has the shape `\x7buri\x7dlocal`, so stripping keeps
the part after the closing brace. -/
def stripNs (t : String) : String := ⟨stripNsAux [] t.data⟩

/-- Modelled from the spec: apply `stripNs` to every tag of the document. -/
def Xml.removeNs : Xml → Xml
  | .elem t x cs => .elem (stripNs t) x (cs.attach.map fun c => Xml.removeNs c.1)
decreasing_by
  have h := List.sizeOf_lt_of_mem c.2
  simp only [Xml.elem.sizeOf_spec]
  omega

/-- Modelled from the spec: the result of `jxml.rpc_error` (the `jxml` module
is not under `src/`): "a plain structured mapping of parsed error fields"
extracted from an RPC error document. -/
structure RpcErrMap where
  severity : Option String := none
  message : Option String := none
deriving Repr, DecidableEq

/-- Modelled from the spec: `jxml.rpc_error` converts an RPC error document
into the plain mapping of parsed error fields. -/
def rpcErrorToMap (x : Xml) : RpcErrMap :=
  { severity := (x.findChild "error-severity").bind Xml.txt
    message := (x.findChild "error-message").bind Xml.txt }

/-- Python values as they occur in the keyword-argument dicts. -/
inductive PyVal where
  | pyNone
  | bool (b : Bool)
  | int (n : Int)
  | str (s : String)
deriving Repr, DecidableEq

/-- Python truthiness of a value. -/
def PyVal.truthy : PyVal → Bool
  | .pyNone => false
  | .bool b => b
  | .int n => n != 0
  | .str s => s != ""

/-- Python `True == v`: the boolean `True` also compares equal to the int 1. -/
def PyVal.eqTrue : PyVal → Bool
  | .bool b => b
  | .int n => n == 1
  | _ => false

/-- Python `str(v)`. -/
def PyVal.pyStr : PyVal → String
  | .pyNone => "None"
  | .bool true => "True"
  | .bool false => "False"
  | .int n => toString n
  | .str s => s

/-- Truthiness of `kvargs.get(key)`: an absent key reads as `None` (falsy). -/
def optTruthy : Option PyVal → Bool
  | some v => v.truthy
  | none => false

/-- Exceptions that the RPC collaborator can raise into the handlers of `Config`.
`rpcError` is the structured protocol error (`jnpr.junos` `RpcError`) carrying
command, response document and parsed sub-errors; `rpcTimeout` is
`RpcTimeoutError` (a subclass of `RpcError` whose `rsp` attribute is `None`;
the exception module is not under `src/`, its hierarchy is modelled from the
spec and the library); `generic` is any other exception, which may or may not
carry an `xml` diagnostic attribute (an lxml element). -/
inductive PyExc where
  | rpcTimeout
  | rpcError (cmd : Option String) (rsp : Xml) (errs : List RpcErrMap)
  | generic (xml : Option Xml)
deriving Repr

/-- Exceptions surfaced to the caller of a `Config` method.  `raised e` is an
underlying exception propagated unmodified; `attributeError` models a Python
`AttributeError` from accessing a missing attribute (for example `err.xml` on
an exception that has no `xml` attribute, or `None.find`). -/
inductive PyError where
  | valueError (msg : String)
  | runtimeError (msg : String)
  | attributeError
  | commitError (cmd : Option String) (rsp : Option Xml)
  | configLoadError (cmd : Option String) (rsp : Option Xml) (errs : List RpcErrMap)
  | lockError (rsp : Option Xml)
  | unlockError (rsp : Option Xml)
  | raised (e : PyExc)
deriving Repr

/-- Values returned by `Config` methods. -/
inductive PyRet where
  | retTrue
  | retFalse
  | retNone
  | retStr (s : String)
  | retXml (x : Xml)
  | retMap (m : RpcErrMap)
deriving Repr

/-! ## Content-shape detection (`_lset_from_rexp`, config.py 330-337)

The three `re.search` patterns are translated into executable character-list
matchers.  Python 2 `re` without `re.UNICODE` uses the ASCII classes
`\s = space, tab, newline, carriage return, vertical tab, form feed` and
`\w = letters, digits, underscore`. -/

/-- Python `\s` (ASCII). -/
def isPySpace (c : Char) : Bool :=
  c == ' ' || c == '\t' || c == '\n' || c == '\r' || c == '\x0b' || c == '\x0c'

/-- Python 2 `\w` (ASCII). -/
def isWordChar (c : Char) : Bool :=
  c.isAlpha || c.isDigit || c == '_'

/-- The class `[a-z:]` under `re.I`: any ASCII letter or colon. -/
def isAzColon (c : Char) : Bool := c.isAlpha || c == ':'

/-- One line of the `re.MULTILINE` search for the pattern
"start of line, optional whitespace, then a `<`, anything, a `>` at end of
line".  Because `\s*` after a line anchor can only reach a `<` on some line by
consuming the (whitespace-only) prefix of that line, the whole multiline search
succeeds iff some line, after dropping leading whitespace, starts with `<` and
ends with `>`. -/
def lineIsTag (l : List Char) : Bool :=
  match l.dropWhile isPySpace with
  | '<' :: rest => rest.getLast? == some '>'
  | _ => false

/-- Split a character list at newlines (the accumulator holds the current
line, reversed). -/
def splitLinesAux : List Char → List Char → List (List Char)
  | acc, [] => [acc.reverse]
  | acc, c :: cs =>
    if c == '\n' then acc.reverse :: splitLinesAux [] cs
    else splitLinesAux (c :: acc) cs

/-- `re.search` with `re.MULTILINE` for the xml-shape pattern of
`_lset_from_rexp` (config.py 332).  `^`/`$` anchor at newline boundaries. -/
def rexp_xml (s : String) : Bool :=
  (splitLinesAux [] s.data).any lineIsTag

/-- `kw` is a leading segment of `t`. -/
def leadsWith : List Char → List Char → Bool
  | [], _ => true
  | _ :: _, [] => false
  | k :: ks, c :: cs => k == c && leadsWith ks cs

/-- `re.search` (anchored at string start, no MULTILINE) for the set-shape
pattern of `_lset_from_rexp` (config.py 334): optional whitespace, then one of
the keywords `set`, `delete`, `replace`, `rename`, then a whitespace
character.  The greedy `\s*` cannot stop inside the whitespace run because the
keywords start with non-whitespace characters. -/
def rexp_set (s : String) : Bool :=
  let t := s.toList.dropWhile isPySpace
  ["set", "delete", "replace", "rename"].any (fun kw =>
    leadsWith kw.toList t &&
      match t.drop kw.length with
      | c :: _ => isPySpace c
      | [] => false)

/-- Given the reversed characters standing before an opening brace, decide
whether they decompose (reading forwards) as letters-or-colons, then optional
whitespace, then a nonempty word-character run, then nonempty whitespace:
the prefix language of the curly-shape pattern of `_lset_from_rexp`
(config.py 336).  Reading the reversal: a nonempty whitespace run, a nonempty
word run, then optional whitespace, then only letters-or-colons.  Taking the
maximal word run is sound: any extra characters it absorbs compared to some
other decomposition are letters that the letters-or-colons segment would have
held, and they can only be absorbed when the middle whitespace is empty, in
which case the remainder is still a valid letters-then-whitespace prefix. -/
def curlyPreOkRev (r : List Char) : Bool :=
  let sp := r.takeWhile isPySpace
  let r2 := r.drop sp.length
  let wd := r2.takeWhile isWordChar
  let r3 := r2.drop wd.length
  let sp2 := r3.takeWhile isPySpace
  !sp.isEmpty && !wd.isEmpty && (r3.drop sp2.length).all isAzColon

/-- Scan for an opening brace whose preceding characters (held reversed in the
accumulator) satisfy `curlyPreOkRev`. -/
def curlyScan : List Char → List Char → Bool
  | _, [] => false
  | pre, c :: rest => (c == '\x7b' && curlyPreOkRev pre) || curlyScan (c :: pre) rest

/-- `re.search` with `re.I` for the opening part of the curly-shape pattern of
`_lset_from_rexp` (config.py 336): anchored at string start, letters-or-colons,
optional whitespace, a word, whitespace, then an opening brace. -/
def rexp_curly_open (s : String) : Bool := curlyScan [] s.toList

/-- `re.search` for the closing part of the curly-shape pattern of
`_lset_from_rexp` (config.py 336): a closing brace followed only by whitespace
up to the end anchor; equivalently, the text ends with a closing brace once
trailing whitespace is dropped. -/
def rexp_curly_close (s : String) : Bool :=
  match s.toList.reverse.dropWhile isPySpace with
  | '\x7d' :: _ => true
  | _ => false

/-- `_lset_from_rexp` (config.py 330-337): detect the content format from the
shape of the string, applying the three tests in order; `none` when no shape
matches (the Python code leaves `kvargs` without a `format` key). -/
def lset_from_rexp (s : String) : Option String :=
  if rexp_xml s then some "xml"
  else if rexp_set s then some "set"
  else if rexp_curly_open s && rexp_curly_close s then some "text"
  else none

/-! ## Building a load request (`Config.load`, config.py 282-377) -/

/-- The `rpc_xattrs` dict: wire-level format attribute and optional action
attribute of the load-configuration request. -/
structure RpcXAttrs where
  format : String
  action : Option String
deriving Repr, DecidableEq

/-- The contents handed to `rpc.load_config`: either the raw string, or the
structured document produced by `etree.XML` when the format is xml. -/
inductive LoadContents where
  | rawStr (s : String)
  | parsedXml (s : String)
deriving Repr, DecidableEq

/-- The request handed to the RPC collaborator by `try_load`. -/
structure LoadReq where
  contents : LoadContents
  xattrs : RpcXAttrs
deriving Repr, DecidableEq

/-- The keyword arguments of `Config.load` relevant to the direct-string
source: `format`, `overwrite`, `merge`. -/
structure LoadKv where
  format : Option String := none
  overwrite : Option PyVal := none
  merge : Option PyVal := none
deriving Repr, DecidableEq

/-- `_lset_format` (config.py 312-321), with the captured `overwrite` value
passed explicitly.  Returns the updated `kvargs` format together with the
updated `rpc_xattrs`, or the conflicting-args `ValueError`.  For format `set`
the action becomes `set` and the wire format is downgraded to `text`. -/
def lset_format (overwrite : PyVal) (fmt : String) (xa : RpcXAttrs) :
    Except PyError (String × RpcXAttrs) :=
  if fmt == "set" then
    if overwrite.eqTrue then
      .error (.valueError "conflicting args, cannot use \x27set\x27 with \x27overwrite\x27")
    else
      .ok ("text", { xa with action := some "set", format := "text" })
  else
    .ok (fmt, { xa with format := fmt })

/-- The exact message of the unresolved-format `RuntimeError`
(config.py 370-373, adjacent string literals concatenated). -/
def unresolvedFmtMsg : String :=
  "Not able to resolve the config format You must define the format of the contents explicitly to the function. Ex: format=\x27set\x27"

/-- The request-construction part of `Config.load` (config.py 282-377) for
content supplied directly as a string: default xattrs (`format` xml, `action`
replace), the overwrite / merge action selection (291-295: `True == overwrite`
selects override, else `merge is True` deletes the action), the explicit
`format` handling (354-355), the content-shape detection for strings with no
explicit format (365-373, failing with a `RuntimeError` when no shape
matches), and the `etree.XML` parse when the final format is xml (374-376). -/
def buildLoadReq (kv : LoadKv) (content : String) : Except PyError LoadReq :=
  let xa0 : RpcXAttrs := { format := "xml", action := some "replace" }
  let ow : PyVal := kv.overwrite.getD (.bool false)
  let xa1 :=
    if ow.eqTrue then { xa0 with action := some "override" }
    else if kv.merge == some (PyVal.bool true) then { xa0 with action := none }
    else xa0
  let afterExplicit : Except PyError (Option String × RpcXAttrs) :=
    match kv.format with
    | some f =>
      match lset_format ow f xa1 with
      | .error e => .error e
      | .ok (f2, xa) => .ok (some f2, xa)
    | none => .ok (none, xa1)
  match afterExplicit with
  | .error e => .error e
  | .ok (fmtOpt, xa2) =>
    let afterDetect : Except PyError (String × RpcXAttrs) :=
      match fmtOpt with
      | some f => .ok (f, xa2)
      | none =>
        match lset_from_rexp content with
        | some f => lset_format ow f xa2
        | none => .error (.runtimeError unresolvedFmtMsg)
    match afterDetect with
    | .error e => .error e
    | .ok (fmt, xa3) =>
      .ok { contents := if fmt == "xml" then .parsedXml content else .rawStr content
            xattrs := xa3 }

/-- `try_load` (config.py 339-348): issue the load, translating a structured
protocol error into `ConfigLoadError` carrying command, response and parsed
sub-errors, and re-raising anything else unmodified.  `RpcTimeoutError` is a
subclass of `RpcError` (hierarchy outside `src/`, modelled from the library)
whose `rsp` attribute is `None`, hence the `ConfigLoadError` with no
response. -/
def try_load (req : LoadReq) (rpc : LoadReq → Except PyExc Xml) : Except PyError Xml :=
  match rpc req with
  | .ok got => .ok got
  | .error (.rpcError cmd rsp errs) => .error (.configLoadError cmd (some rsp) errs)
  | .error .rpcTimeout => .error (.configLoadError none none [])
  | .error (.generic x) => .error (.raised (.generic x))

/-- `Config.load` (config.py 214-377) restricted to the direct-string content
source: build the request, then hand it to the RPC collaborator. -/
def load (kv : LoadKv) (content : String) (rpc : LoadReq → Except PyExc Xml) :
    Except PyError Xml :=
  match buildLoadReq kv content with
  | .error e => .error e
  | .ok req => try_load req rpc

/-- Resolution precedence for the direct-string source: the explicit `format`
argument when given, otherwise the content-shape detection result. -/
def resolvedFmt (kv : LoadKv) (content : String) : Option String :=
  match kv.format with
  | some f => some f
  | none => lset_from_rexp content

/-! ## Commit (`Config.commit`, config.py 39-140) -/

/-- The keyword arguments of `Config.commit`. -/
structure CommitKv where
  comment : Option PyVal := none
  confirm : Option PyVal := none
  timeout : Option PyVal := none
  force_sync : Option PyVal := none
  sync : Option PyVal := none
  full : Option PyVal := none
  detail : Option PyVal := none
deriving Repr

/-- The `rpc_args` dict (plus the positional detail marker) built by
`Config.commit` before calling `rpc.commit_configuration`. -/
structure CommitArgs where
  log : Option PyVal := none
  confirmed : Bool := false
  confirm_timeout : Option String := none
  dev_timeout : Option PyVal := none
  synchronize : Bool := false
  force_synchronize : Bool := false
  full : Bool := false
  detail : Bool := false
deriving Repr, DecidableEq

/-- The argument construction of `Config.commit` (config.py 74-114).  Each
field mirrors the corresponding truthiness-guarded dict update: `log` from a
truthy comment (78-80); `confirmed` and `confirm-timeout` from a truthy
confirm, the explicit timeout attached exactly when `str(confirm)` differs
from the string True (87-92); `dev_timeout` from a truthy timeout (96-98);
`synchronize`/`force-synchronize` from force_sync, else `synchronize` from
sync (100-105); `full` (107-109); the positional detail marker (111-114). -/
def commitArgs (kv : CommitKv) : CommitArgs :=
  { log := if optTruthy kv.comment then kv.comment else none
    confirmed := optTruthy kv.confirm
    confirm_timeout :=
      match kv.confirm with
      | some v => if v.truthy && v.pyStr != "True" then some v.pyStr else none
      | none => none
    dev_timeout := if optTruthy kv.timeout then kv.timeout else none
    synchronize := optTruthy kv.force_sync || optTruthy kv.sync
    force_synchronize := optTruthy kv.force_sync
    full := optTruthy kv.full
    detail := optTruthy kv.detail }

/-- `Config.commit` (config.py 119-140): build the arguments, call the RPC and
translate its failures.  A timeout is re-raised as-is (121-122); a structured
protocol error whose response has an `ok` child is warnings-only and returns
True, otherwise `CommitError` carries command and response (123-128); a
generic exception carrying an lxml `xml` attribute becomes a `CommitError`
over that document, any other generic exception is re-raised unmodified
(129-135); on success the detail document is returned when requested,
otherwise True (137-140). -/
def commit (kv : CommitKv) (rpc : CommitArgs → Except PyExc Xml) :
    Except PyError PyRet :=
  match rpc (commitArgs kv) with
  | .ok rsp => if (commitArgs kv).detail then .ok (.retXml rsp) else .ok .retTrue
  | .error .rpcTimeout => .error (.raised .rpcTimeout)
  | .error (.rpcError cmd rsp _) =>
    if (rsp.findChild "ok").isSome then .ok .retTrue
    else .error (.commitError cmd (some rsp))
  | .error (.generic (some x)) => .error (.commitError none (some x))
  | .error (.generic none) => .error (.raised (.generic none))

/-- `Config.commit_check` (config.py 146-171), over the outcome of
`rpc.commit_configuration(check=True)`.  A structured protocol error is
disambiguated exactly as in `commit` (160-165); any other exception has its
`xml` attribute converted to the plain error mapping and *returned*
(166-169).  An exception without an `xml` attribute makes that access fail
with an `AttributeError`; a timeout (an `RpcError` subclass whose `rsp` is
`None`, hierarchy outside `src/`) makes `err.rsp.find` fail the same way. -/
def commit_check (r : Except PyExc Xml) : Except PyError PyRet :=
  match r with
  | .ok _ => .ok .retTrue
  | .error (.rpcError cmd rsp _) =>
    if (rsp.findChild "ok").isSome then .ok .retTrue
    else .error (.commitError cmd (some rsp))
  | .error .rpcTimeout => .error .attributeError
  | .error (.generic (some x)) => .ok (.retMap (rpcErrorToMap x))
  | .error (.generic none) => .error .attributeError

/-! ## Diff and rollback (config.py 177-197, 489-509) -/

/-- The dict argument of `rpc.get_configuration` built by `Config.diff`. -/
structure GetCfgArgs where
  compare : String
  rollback : String
  format : String
deriving Repr, DecidableEq

/-- The dict argument of `rpc.load_configuration` built by
`Config.rollback`. -/
structure LoadCfgArgs where
  compare : String
  rollback : String
deriving Repr, DecidableEq

/-- The response handling of `Config.diff` (config.py 196-197):
`rsp.find(...)` returning nothing makes the `.text` access an
`AttributeError`; a text of exactly one newline is normalized to None; a
missing text is None, which also compares unequal to the newline and is
returned (so None either way); other text is returned verbatim.  Exceptions
from the RPC are not intercepted. -/
def diffHandleRsp (r : Except PyExc Xml) : Except PyError PyRet :=
  match r with
  | .error e => .error (.raised e)
  | .ok rsp =>
    match rsp.findChild "configuration-output" with
    | none => .error .attributeError
    | some el =>
      match el.txt with
      | none => .ok .retNone
      | some t => if t == "\n" then .ok .retNone else .ok (.retStr t)

/-- `Config.diff` (config.py 177-197): validate the rollback id bound locally,
then request the textual comparison. -/
def diff (rb_id : Int) (rpc : GetCfgArgs → Except PyExc Xml) :
    Except PyError PyRet :=
  if rb_id < 0 || rb_id > 49 then
    .error (.valueError ("Invalid rollback #" ++ toString rb_id))
  else
    diffHandleRsp (rpc { compare := "rollback", rollback := toString rb_id, format := "text" })

/-- The response handling of `Config.rollback` (config.py 505-509): always
True on success; exceptions are not intercepted. -/
def rollbackHandleRsp (r : Except PyExc Xml) : Except PyError PyRet :=
  match r with
  | .ok _ => .ok .retTrue
  | .error e => .error (.raised e)

/-- `Config.rollback` (config.py 489-509): validate the rollback id bound
locally, then issue the load-configuration request. -/
def rollback (rb_id : Int) (rpc : LoadCfgArgs → Except PyExc Xml) :
    Except PyError PyRet :=
  if rb_id < 0 || rb_id > 49 then
    .error (.valueError ("Invalid rollback #" ++ toString rb_id))
  else
    rollbackHandleRsp (rpc { compare := "rollback", rollback := toString rb_id })

/-! ## Lock and unlock (config.py 439-483) -/

/-- `Config.lock` (config.py 439-458): catches every exception; a structured
protocol error (or its timeout subclass, whose `rsp` is `None`) is wrapped as
`LockError` over its response; any other exception is wrapped as `LockError`
over its namespace-stripped `xml` attribute — when that attribute is missing
the access itself fails with an `AttributeError`. -/
def lock (r : Except PyExc Xml) : Except PyError PyRet :=
  match r with
  | .ok _ => .ok .retTrue
  | .error (.rpcError _ rsp _) => .error (.lockError (some rsp))
  | .error .rpcTimeout => .error (.lockError none)
  | .error (.generic (some x)) => .error (.lockError (some x.removeNs))
  | .error (.generic none) => .error .attributeError

/-- `Config.unlock` (config.py 464-483): mirrors `lock` with
`UnlockError`. -/
def unlock (r : Except PyExc Xml) : Except PyError PyRet :=
  match r with
  | .ok _ => .ok .retTrue
  | .error (.rpcError _ rsp _) => .error (.unlockError (some rsp))
  | .error .rpcTimeout => .error (.unlockError none)
  | .error (.generic (some x)) => .error (.unlockError (some x.removeNs))
  | .error (.generic none) => .error .attributeError

/-! ## Rescue configuration (`Config.rescue`, config.py 515-609) -/

/-- `_rescue_get` (config.py 570-583): a bare except swallows every failure
into None; on success, text format returns
`findtext(configuration-information/configuration-output)` (None when the
path is absent, the empty string standing in for an element without text),
any other format returns the raw document. -/
def rescue_get (format : String) (r : Except PyExc Xml) : PyRet :=
  match r with
  | .error _ => .retNone
  | .ok got =>
    if format == "text" then
      match got.findChild "configuration-information" with
      | none => .retNone
      | some ci =>
        match ci.findChild "configuration-output" with
        | none => .retNone
        | some co => .retStr (co.txt.getD "")
    else .retXml got

/-- `_rescue_reload` (config.py 585-597): a bare except swallows every failure
into False; success returns the raw response. -/
def rescue_reload (r : Except PyExc Xml) : PyRet :=
  match r with
  | .ok rsp => .retXml rsp
  | .error _ => .retFalse

/-- `Config.rescue` (config.py 515-609): dispatch over the action table; the
four RPC outcomes stand for `get_rescue_information`,
`request_save_rescue_configuration`, `request_delete_rescue_configuration`
and `load_configuration(rescue)`.  Save and delete do not intercept
exceptions; an unknown action is a local `ValueError` naming it. -/
def rescue (action : String) (format : String)
    (getR saveR delR loadR : Except PyExc Xml) : Except PyError PyRet :=
  if action == "get" then .ok (rescue_get format getR)
  else if action == "save" then
    match saveR with
    | .ok _ => .ok .retTrue
    | .error e => .error (.raised e)
  else if action == "delete" then
    match delR with
    | .ok _ => .ok .retTrue
    | .error e => .error (.raised e)
  else if action == "reload" then .ok (rescue_reload loadR)
  else .error (.valueError ("unsupported action: " ++ action))

/-! ## Theorems -/

/-- Closed-form characterization of `buildLoadReq`: the request depends only
on the resolved format (explicit, else detected), the overwrite comparison
with True and the merge identity with True. -/
theorem buildLoadReq_eq (kv : LoadKv) (content : String) :
    buildLoadReq kv content =
      match resolvedFmt kv content with
      | none => .error (.runtimeError unresolvedFmtMsg)
      | some f =>
        if f == "set" then
          if (kv.overwrite.getD (.bool false)).eqTrue then
            .error (.valueError "conflicting args, cannot use \x27set\x27 with \x27overwrite\x27")
          else
            .ok { contents := .rawStr content
                  xattrs := { format := "text", action := some "set" } }
        else
          .ok { contents := if f == "xml" then .parsedXml content else .rawStr content
                xattrs := { format := f
                            action :=
                              if (kv.overwrite.getD (.bool false)).eqTrue then some "override"
                              else if kv.merge == some (PyVal.bool true) then none
                              else some "replace" } } := by
  rcases kv with ⟨fo, ow, mg⟩
  cases fo with
  | none =>
    cases h : lset_from_rexp content with
    | none => simp [buildLoadReq, resolvedFmt, h]
    | some f =>
      by_cases hset : (f == "set")
      · by_cases how : (ow.getD (.bool false)).eqTrue <;>
          simp [buildLoadReq, resolvedFmt, lset_format, h, hset, how]
      · by_cases how : (ow.getD (.bool false)).eqTrue <;>
        by_cases hmg : (mg == some (PyVal.bool true)) <;>
          simp [buildLoadReq, resolvedFmt, lset_format, h, hset, how, hmg]
  | some f =>
    by_cases hset : (f == "set")
    · by_cases how : (ow.getD (.bool false)).eqTrue <;>
        simp [buildLoadReq, resolvedFmt, lset_format, hset, how]
    · by_cases how : (ow.getD (.bool false)).eqTrue <;>
      by_cases hmg : (mg == some (PyVal.bool true)) <;>
        simp [buildLoadReq, resolvedFmt, lset_format, hset, how, hmg]

/-- C1: For every load request built from directly supplied content, the
action marker is chosen as follows: if the resolved format is set-style the
action is set and the wire-level format is downgraded to text; otherwise if
overwrite is requested the action is override; otherwise if merge is
requested the action marker is omitted; otherwise the action defaults to
replace. -/
theorem c1_load_action (kv : LoadKv) (content : String) (req : LoadReq)
    (h : buildLoadReq kv content = .ok req) :
    (resolvedFmt kv content = some "set" →
        req.xattrs.action = some "set" ∧ req.xattrs.format = "text") ∧
    (resolvedFmt kv content ≠ some "set" →
      ((kv.overwrite.getD (.bool false)).eqTrue = true →
          req.xattrs.action = some "override") ∧
      ((kv.overwrite.getD (.bool false)).eqTrue = false →
        (kv.merge = some (PyVal.bool true) → req.xattrs.action = none) ∧
        (kv.merge ≠ some (PyVal.bool true) → req.xattrs.action = some "replace"))) := by
  cases hr : resolvedFmt kv content with
  | none =>
    rw [buildLoadReq_eq, hr] at h
    exact absurd h (by simp)
  | some f =>
    by_cases hset : (f = "set")
    · subst hset
      by_cases how : ((kv.overwrite.getD (.bool false)).eqTrue = true)
      · have hval : buildLoadReq kv content =
            .error (.valueError "conflicting args, cannot use \x27set\x27 with \x27overwrite\x27") := by
          rw [buildLoadReq_eq, hr]
          simp [how]
        rw [hval] at h
        exact absurd h (by simp)
      · have hval : buildLoadReq kv content =
            .ok { contents := .rawStr content
                  xattrs := { format := "text", action := some "set" } } := by
          rw [buildLoadReq_eq, hr]
          simp [how]
        rw [hval] at h
        obtain rfl := (Except.ok.inj h).symm
        exact ⟨fun _ => ⟨rfl, rfl⟩, fun hne => absurd rfl hne⟩
    · have hval : buildLoadReq kv content =
          .ok { contents := if f == "xml" then .parsedXml content else .rawStr content
                xattrs := { format := f
                            action :=
                              if (kv.overwrite.getD (.bool false)).eqTrue then some "override"
                              else if kv.merge == some (PyVal.bool true) then none
                              else some "replace" } } := by
        rw [buildLoadReq_eq, hr]
        simp [hset]
      rw [hval] at h
      obtain rfl := (Except.ok.inj h).symm
      refine ⟨fun hs => absurd hs (by simp [hr, hset]),
        fun _ => ⟨fun how => ?_, fun how => ⟨fun hmg => ?_, fun hmg => ?_⟩⟩⟩
      · simp [how]
      · simp [how, hmg]
      · simp [how, hmg]

/-- C1 witness: explicit set format on concrete content builds the request
with action set and wire format text. -/
theorem c1_load_action_witness :
    buildLoadReq { format := some "set" } "set a" =
      .ok { contents := .rawStr "set a", xattrs := { format := "text", action := some "set" } } ∧
    ({ contents := .rawStr "set a", xattrs := { format := "text", action := some "set" } } : LoadReq).xattrs.action
        = some "set" ∧
    ({ contents := .rawStr "set a", xattrs := { format := "text", action := some "set" } } : LoadReq).xattrs.format
        = "text" := by
  refine ⟨rfl, ?_⟩
  have h := (c1_load_action { format := some "set" } "set a"
    { contents := .rawStr "set a", xattrs := { format := "text", action := some "set" } } rfl).1 rfl
  exact ⟨h.1, h.2⟩

/-- C2: overwrite (a value comparing Python-equal to True) together with
resolved set-style format fails locally with the conflicting-args ValueError,
identically for every RPC backend — so no remote call is made before the
failure. -/
theorem c2_set_overwrite_conflict (kv : LoadKv) (content : String)
    (how : (kv.overwrite.getD (.bool false)).eqTrue = true)
    (hset : resolvedFmt kv content = some "set") :
    ∀ rpc, load kv content rpc =
      .error (.valueError "conflicting args, cannot use \x27set\x27 with \x27overwrite\x27") := by
  intro rpc
  unfold load
  rw [buildLoadReq_eq, hset]
  simp [how]

/-- C2 witness. -/
theorem c2_set_overwrite_conflict_witness :
    load { format := some "set", overwrite := some (.bool true) } "set a"
        (fun _ => .ok (Xml.elem "ok" none [])) =
      .error (.valueError "conflicting args, cannot use \x27set\x27 with \x27overwrite\x27") :=
  c2_set_overwrite_conflict { format := some "set", overwrite := some (.bool true) }
    "set a" rfl rfl _

/-- C3: for a directly supplied string with no explicit format, detection
applies the three shape tests in order (a line shaped like a leading tag
yields xml, a leading set/delete/replace/rename keyword followed by
whitespace yields set, an identifier-brace block ending with a closing brace
yields text); when none matches, load fails with the explicit-format
RuntimeError for every RPC backend — it never silently defaults. -/
theorem c3_format_detection (kv : LoadKv) (content : String)
    (hnf : kv.format = none) :
    lset_from_rexp content =
      (if rexp_xml content then some "xml"
       else if rexp_set content then some "set"
       else if rexp_curly_open content && rexp_curly_close content then some "text"
       else none) ∧
    (lset_from_rexp content = none →
      ∀ rpc, load kv content rpc = .error (.runtimeError unresolvedFmtMsg)) := by
  refine ⟨rfl, fun hnone rpc => ?_⟩
  unfold load
  rw [buildLoadReq_eq]
  simp [resolvedFmt, hnf, hnone]

/-- C3 witness: a plain sentence matches none of the three shapes and load
fails with the explicit-format RuntimeError. -/
theorem c3_format_detection_witness :
    lset_from_rexp "just a sentence" = none ∧
    load {} "just a sentence" (fun _ => .ok (Xml.elem "ok" none [])) =
      .error (.runtimeError unresolvedFmtMsg) :=
  ⟨by decide, (c3_format_detection {} "just a sentence" rfl).2 (by decide) _⟩

/-- C10: an overwrite value that does not compare Python-equal to True (even
a truthy one such as a non-empty string) behaves exactly as if overwrite were
absent: the built request is identical, explicit text format keeps the
default replace action, and explicit set format raises no conflict error. -/
theorem c10_overwrite_strict (v : PyVal) (hv : v.eqTrue = false) :
    (∀ fo mg content,
        buildLoadReq { format := fo, overwrite := some v, merge := mg } content =
          buildLoadReq { format := fo, overwrite := none, merge := mg } content) ∧
    (∀ content,
        buildLoadReq { format := some "text", overwrite := some v } content =
          .ok { contents := .rawStr content
                xattrs := { format := "text", action := some "replace" } }) ∧
    (∀ content,
        buildLoadReq { format := some "set", overwrite := some v } content =
          .ok { contents := .rawStr content
                xattrs := { format := "text", action := some "set" } }) := by
  refine ⟨fun fo mg content => ?_, fun content => ?_, fun content => ?_⟩
  · rw [buildLoadReq_eq, buildLoadReq_eq]
    simp [resolvedFmt, hv, show (PyVal.bool false).eqTrue = false from rfl]
  · rw [buildLoadReq_eq]
    simp [resolvedFmt, hv]
  · rw [buildLoadReq_eq]
    simp [resolvedFmt, hv]

/-- C10 witness: overwrite given as the non-empty (truthy) string true is
ignored: set format builds the set request without a conflict error, text
format keeps action replace. -/
theorem c10_overwrite_strict_witness :
    PyVal.truthy (.str "true") = true ∧
    buildLoadReq { format := some "set", overwrite := some (.str "true") } "x" =
      .ok { contents := .rawStr "x", xattrs := { format := "text", action := some "set" } } ∧
    buildLoadReq { format := some "text", overwrite := some (.str "true") } "x" =
      .ok { contents := .rawStr "x", xattrs := { format := "text", action := some "replace" } } :=
  ⟨rfl, (c10_overwrite_strict (.str "true") rfl).2.2 "x",
    (c10_overwrite_strict (.str "true") rfl).2.1 "x"⟩

/-- C4: a commit (and a commit-check) receiving a structured protocol error
returns True when the response contains an ok marker (warnings-only), and
otherwise raises CommitError carrying the issued command and the response. -/
theorem c4_commit_ok_marker (kv : CommitKv) (rpc : CommitArgs → Except PyExc Xml)
    (cmd : Option String) (rsp : Xml) (errs : List RpcErrMap)
    (h : rpc (commitArgs kv) = .error (.rpcError cmd rsp errs)) :
    commit kv rpc =
      (if (rsp.findChild "ok").isSome then .ok .retTrue
       else .error (.commitError cmd (some rsp))) ∧
    commit_check (.error (.rpcError cmd rsp errs)) =
      (if (rsp.findChild "ok").isSome then .ok .retTrue
       else .error (.commitError cmd (some rsp))) := by
  constructor
  · unfold commit
    rw [h]
  · rfl

/-- C4 witness: a response containing an ok child makes commit succeed; one
without it makes commit-check raise CommitError with command and response. -/
theorem c4_commit_ok_marker_witness :
    commit {}
        (fun _ => .error (.rpcError (some "commit-configuration")
          (Xml.elem "rpc-reply" none [Xml.elem "ok" none []]) [])) = .ok .retTrue ∧
    commit_check
        (.error (.rpcError (some "commit-configuration")
          (Xml.elem "rpc-reply" none [Xml.elem "error" none []]) [])) =
      .error (.commitError (some "commit-configuration")
        (some (Xml.elem "rpc-reply" none [Xml.elem "error" none []]))) := by
  constructor
  · have h := (c4_commit_ok_marker {}
      (fun _ => .error (.rpcError (some "commit-configuration")
        (Xml.elem "rpc-reply" none [Xml.elem "ok" none []]) []))
      (some "commit-configuration")
      (Xml.elem "rpc-reply" none [Xml.elem "ok" none []]) [] rfl).1
    rw [h]
    rfl
  · have h := (c4_commit_ok_marker {}
      (fun _ => .error (.rpcError (some "commit-configuration")
        (Xml.elem "rpc-reply" none [Xml.elem "error" none []]) []))
      (some "commit-configuration")
      (Xml.elem "rpc-reply" none [Xml.elem "error" none []]) [] rfl).2
    rw [h]
    rfl

/-- C5 counterexample: lock on a generic exception without an xml diagnostic
neither propagates it unmodified nor produces a LockError — the attribute
access itself fails. -/
theorem c5_lock_counterexample :
    lock (.error (.generic none)) = .error .attributeError ∧
    lock (.error (.generic none)) ≠ .error (.raised (.generic none)) :=
  ⟨rfl, fun h => PyError.noConfusion (Except.error.inj h)⟩

/-- C5 (amended): commit translates a structured protocol error into
success-or-CommitError and a generic xml-carrying exception into CommitError,
re-raising a generic exception without a diagnostic unmodified; load
translates a structured protocol error into ConfigLoadError and re-raises
every generic exception unmodified; lock and unlock wrap structured protocol
errors and xml-carrying generic exceptions into LockError/UnlockError (with
namespaces stripped), but a generic exception without an xml diagnostic makes
the attribute access fail instead of propagating unmodified. -/
theorem c5_error_translation :
    (∀ kv rpc cmd rsp errs, rpc (commitArgs kv) = .error (.rpcError cmd rsp errs) →
        commit kv rpc =
          (if (rsp.findChild "ok").isSome then .ok .retTrue
           else .error (.commitError cmd (some rsp)))) ∧
    (∀ kv rpc x, rpc (commitArgs kv) = .error (.generic (some x)) →
        commit kv rpc = .error (.commitError none (some x))) ∧
    (∀ kv rpc, rpc (commitArgs kv) = .error (.generic none) →
        commit kv rpc = .error (.raised (.generic none))) ∧
    (∀ req rpc cmd rsp errs, rpc req = .error (.rpcError cmd rsp errs) →
        try_load req rpc = .error (.configLoadError cmd (some rsp) errs)) ∧
    (∀ req rpc x, rpc req = .error (.generic x) →
        try_load req rpc = .error (.raised (.generic x))) ∧
    (∀ cmd rsp errs, lock (.error (.rpcError cmd rsp errs)) = .error (.lockError (some rsp))) ∧
    (∀ x, lock (.error (.generic (some x))) = .error (.lockError (some x.removeNs))) ∧
    lock (.error (.generic none)) = .error .attributeError ∧
    (∀ cmd rsp errs, unlock (.error (.rpcError cmd rsp errs)) = .error (.unlockError (some rsp))) ∧
    (∀ x, unlock (.error (.generic (some x))) = .error (.unlockError (some x.removeNs))) ∧
    unlock (.error (.generic none)) = .error .attributeError := by
  refine ⟨?_, ?_, ?_, ?_, ?_, fun cmd rsp errs => rfl, fun x => rfl, rfl,
    fun cmd rsp errs => rfl, fun x => rfl, rfl⟩
  · intro kv rpc cmd rsp errs h
    unfold commit
    rw [h]
  · intro kv rpc x h
    unfold commit
    rw [h]
  · intro kv rpc h
    unfold commit
    rw [h]
  · intro req rpc cmd rsp errs h
    unfold try_load
    rw [h]
  · intro req rpc x h
    unfold try_load
    rw [h]

/-- C5 witness: commit re-raises a diagnostic-free generic exception
unmodified, and load re-raises a generic exception unmodified. -/
theorem c5_error_translation_witness :
    commit {} (fun _ => .error (.generic none)) = .error (.raised (.generic none)) ∧
    try_load { contents := .rawStr "set a", xattrs := { format := "text", action := some "set" } }
        (fun _ => .error (.generic (some (Xml.elem "err" none [])))) =
      .error (.raised (.generic (some (Xml.elem "err" none [])))) :=
  ⟨c5_error_translation.2.2.1 {} _ rfl,
   c5_error_translation.2.2.2.2.1 _ _ _ rfl⟩

/-- C6 counterexample: a generic exception without an xml diagnostic makes
commit-check fail with an attribute access error instead of returning a
mapping, while commit re-raises the original exception instead of raising
CommitError. -/
theorem c6_counterexample :
    commit_check (.error (.generic none)) = .error .attributeError ∧
    commit {} (fun _ => .error (.generic none)) = .error (.raised (.generic none)) :=
  ⟨rfl, rfl⟩

/-- C6 (amended): for a generic (non-protocol-error) exception carrying an
xml diagnostic, commit-check converts the diagnostic into the plain mapping
of parsed error fields and returns it rather than raising, while commit
raises CommitError over the same diagnostic instead of returning a value. -/
theorem c6_check_returns_mapping :
    (∀ x, commit_check (.error (.generic (some x))) = .ok (.retMap (rpcErrorToMap x))) ∧
    (∀ kv rpc x, rpc (commitArgs kv) = .error (.generic (some x)) →
        commit kv rpc = .error (.commitError none (some x))) := by
  refine ⟨fun x => rfl, fun kv rpc x h => ?_⟩
  unfold commit
  rw [h]

/-- C6 witness: commit-check returns the parsed mapping for a concrete
diagnostic; commit raises CommitError for the same failure class. -/
theorem c6_check_returns_mapping_witness :
    commit_check (.error (.generic (some
        (Xml.elem "rpc-error" none [Xml.elem "error-severity" (some "error") []])))) =
      .ok (.retMap { severity := some "error", message := none }) ∧
    commit {} (fun _ => .error (.generic (some (Xml.elem "rpc-error" none [])))) =
      .error (.commitError none (some (Xml.elem "rpc-error" none []))) := by
  constructor
  · have h := c6_check_returns_mapping.1
      (Xml.elem "rpc-error" none [Xml.elem "error-severity" (some "error") []])
    rw [h]
    rfl
  · exact c6_check_returns_mapping.2 {} _ (Xml.elem "rpc-error" none []) rfl

/-- C7 counterexample: confirm present with the concrete minute count 0 — the
request carries neither the confirmed flag nor a confirm-timeout value. -/
theorem c7_confirm_counterexample :
    (commitArgs { confirm := some (.int 0) }).confirmed = false ∧
    (commitArgs { confirm := some (.int 0) }).confirm_timeout = none :=
  ⟨rfl, rfl⟩

/-- C7 (amended): when confirm is present, the confirmed flag is attached
exactly when the value is truthy, and the explicit confirm-timeout (the
string form of the value) is attached exactly when the value is truthy and
its string form differs from the string True — so the boolean True attaches
the flag alone, a nonzero minute count attaches flag and timeout, and a falsy
value (False or 0) attaches neither. -/
theorem c7_confirm_args (kv : CommitKv) (v : PyVal) (hv : kv.confirm = some v) :
    (commitArgs kv).confirmed = v.truthy ∧
    (commitArgs kv).confirm_timeout =
      (if v.truthy && v.pyStr != "True" then some v.pyStr else none) := by
  rcases kv with ⟨c, cf, t, fs, sy, fu, d⟩
  cases hv
  exact ⟨rfl, rfl⟩

/-- C7 witness: confirm as the boolean True attaches the confirmed flag and
no timeout; confirm as 5 attaches the flag and timeout 5. -/
theorem c7_confirm_args_witness :
    (commitArgs { confirm := some (.bool true) }).confirmed = true ∧
    (commitArgs { confirm := some (.bool true) }).confirm_timeout = none ∧
    (commitArgs { confirm := some (.int 5) }).confirmed = true ∧
    (commitArgs { confirm := some (.int 5) }).confirm_timeout = some "5" := by
  have h1 := c7_confirm_args { confirm := some (.bool true) } (.bool true) rfl
  have h2 := c7_confirm_args { confirm := some (.int 5) } (.int 5) rfl
  exact ⟨h1.1, h1.2, h2.1, h2.2⟩

/-- C8: for every integer rollback id outside 0..49 both diff and rollback
fail locally with a ValueError naming the id, identically for every RPC
backend; for every id within the bound the remote request is issued with the
id rendered into the request arguments. -/
theorem c8_rollback_bounds (rb_id : Int) :
    ((rb_id < 0 ∨ rb_id > 49) →
      (∀ rpc, diff rb_id rpc =
          .error (.valueError ("Invalid rollback #" ++ toString rb_id))) ∧
      (∀ rpc, rollback rb_id rpc =
          .error (.valueError ("Invalid rollback #" ++ toString rb_id)))) ∧
    (0 ≤ rb_id → rb_id ≤ 49 →
      (∀ rpc, diff rb_id rpc =
          diffHandleRsp (rpc { compare := "rollback", rollback := toString rb_id, format := "text" })) ∧
      (∀ rpc, rollback rb_id rpc =
          rollbackHandleRsp (rpc { compare := "rollback", rollback := toString rb_id }))) := by
  constructor
  · intro hbad
    have hb : (rb_id < 0 || rb_id > 49) = true := by
      rcases hbad with h | h <;> simp [h]
    constructor
    · intro rpc
      unfold diff
      rw [if_pos hb]
    · intro rpc
      unfold rollback
      rw [if_pos hb]
  · intro h0 h49
    have hb : ¬((rb_id < 0 || rb_id > 49) = true) := by
      simp only [Bool.or_eq_true, decide_eq_true_eq, not_or, not_lt]
      omega
    constructor
    · intro rpc
      unfold diff
      rw [if_neg hb]
    · intro rpc
      unfold rollback
      rw [if_neg hb]

/-- C8 witness: ids -1 and 50 fail locally naming the id; ids 0 and 49 issue
the remote request and return its handled response. -/
theorem c8_rollback_bounds_witness :
    diff (-1) (fun _ => .ok (Xml.elem "rpc-reply" none [])) =
      .error (.valueError "Invalid rollback #-1") ∧
    rollback 50 (fun _ => .ok (Xml.elem "rpc-reply" none [])) =
      .error (.valueError "Invalid rollback #50") ∧
    diff 0 (fun _ => .ok (Xml.elem "rpc-reply" none
        [Xml.elem "configuration-output" (some "\n") []])) = .ok .retNone ∧
    rollback 49 (fun _ => .ok (Xml.elem "rpc-reply" none [])) = .ok .retTrue := by
  refine ⟨?_, ?_, ?_, ?_⟩
  · have h := ((c8_rollback_bounds (-1)).1 (Or.inl (by decide))).1
      (fun _ => .ok (Xml.elem "rpc-reply" none []))
    rw [h]
    rfl
  · have h := ((c8_rollback_bounds 50).1 (Or.inr (by decide))).2
      (fun _ => .ok (Xml.elem "rpc-reply" none []))
    rw [h]
    rfl
  · have h := ((c8_rollback_bounds 0).2 (by decide) (by decide)).1
      (fun _ => .ok (Xml.elem "rpc-reply" none
        [Xml.elem "configuration-output" (some "\n") []]))
    rw [h]
    rfl
  · have h := ((c8_rollback_bounds 49).2 (by decide) (by decide)).2
      (fun _ => .ok (Xml.elem "rpc-reply" none []))
    rw [h]
    rfl

/-- C9: rescue get never raises — every underlying retrieval failure yields
None; rescue reload yields False on every underlying failure and the raw
response on success; the rescue dispatcher surfaces both as plain return
values, never as errors. -/
theorem c9_rescue_swallow :
    (∀ fmt e, rescue_get fmt (.error e) = .retNone) ∧
    (∀ e, rescue_reload (.error e) = .retFalse) ∧
    (∀ x, rescue_reload (.ok x) = .retXml x) ∧
    (∀ fmt g s d l, rescue "get" fmt g s d l = .ok (rescue_get fmt g)) ∧
    (∀ fmt g s d l, rescue "reload" fmt g s d l = .ok (rescue_reload l)) :=
  ⟨fun _ _ => rfl, fun _ => rfl, fun _ => rfl, fun _ _ _ _ _ => rfl, fun _ _ _ _ _ => rfl⟩
